import Mathlib

/-!
Shallow embedding of `src/game.py` (py-projectile-motion).

Python floats are modelled as rationals `ℚ` (every IEEE float value is a
rational, and every arithmetic operation appearing in the embedded code —
`+`, `-`, `*`, `**2`, comparisons — is exact on the inputs the claims use);
`math.sqrt` alone escapes `ℚ` and is modelled as `Real.sqrt` on the cast
radicand.  Methods that can `raise` are embedded in `Except String`;
methods with no failure path are total functions.
-/

/-- Embedding of `PyGameCoordinatesTransform.transform_coordinates_flip`
(`src/game.py` lines 46–49): `(x, y) ↦ (x, h - y)`. -/
def transform_coordinates_flip (coordinates : ℚ × ℚ) (h : ℚ) : ℚ × ℚ :=
  let (x, y) := coordinates
  (x, h - y)

/-- Embedding of the object state of `PyGameObjecMotion` (which inherits the
motion-equation fields of `PyGame2DMotionEquations`): the immutable initial
conditions `x0 y0 vx0 vy0`, the accelerations `ay` (set from `gravity`) and
`ax`, the mutable `coords`, and the two lists of `self.metrics`
(`metrics["velocity"]` and `metrics["position"]`; only the latter is ever
appended to by the embedded methods). -/
structure PyGameObjecMotion where
  x0 : ℚ
  y0 : ℚ
  vx0 : ℚ
  vy0 : ℚ
  ay : ℚ
  ax : ℚ
  coords : ℚ × ℚ
  metrics_velocity : List (ℚ × ℚ)
  metrics_position : List (ℚ × ℚ)
  deriving DecidableEq

namespace PyGameObjecMotion

/-- Embedding of `PyGame2DMotionEquations.get_x_velocity` (lines 95–96):
`ax * t + vx0`. -/
def get_x_velocity (o : PyGameObjecMotion) (t : ℚ) : ℚ :=
  o.ax * t + o.vx0

/-- Embedding of `PyGame2DMotionEquations.get_y_velocity` (lines 98–99):
`ay * t + vy0`. -/
def get_y_velocity (o : PyGameObjecMotion) (t : ℚ) : ℚ :=
  o.ay * t + o.vy0

/-- Embedding of `PyGame2DMotionEquations.get_x_position` (lines 88–90).  The source
shadows the field `ax` with the local `ax = self.get_x_velocity(t) * t`
before plugging it into the `0.5 * ax * t**2` slot; the embedding reproduces
that shadowing verbatim. -/
def get_x_position (o : PyGameObjecMotion) (t : ℚ) : ℚ :=
  let ax := o.get_x_velocity t * t
  0.5 * ax * t ^ 2 + o.vx0 * t + o.x0

/-- Embedding of `PyGame2DMotionEquations.get_y_position` (lines 92–93):
`0.5 * ay * t**2 + vy0 * t + y0`. -/
def get_y_position (o : PyGameObjecMotion) (t : ℚ) : ℚ :=
  0.5 * o.ay * t ^ 2 + o.vy0 * t + o.y0

/-- Embedding of `PyGameObjecMotion.get_velocity_module` (lines 258–265).  For `t ≤ 0`
the source computes `math.sqrt(self.vx0**2 + self.vy0)` — `vy0` unsquared,
exactly as written. -/
noncomputable def get_velocity_module (o : PyGameObjecMotion) (t : ℚ) : ℝ :=
  if t ≤ 0 then
    Real.sqrt ((o.vx0 ^ 2 + o.vy0 : ℚ) : ℝ)
  else
    Real.sqrt (((o.get_x_velocity t) ^ 2 + (o.get_y_velocity t) ^ 2 : ℚ) : ℝ)

/-- Embedding of `PyGameObjecMotion._forward` (lines 143–153): move up (decreasing `y`),
wrapping `y` to `h` when `y - yi <= 0`, then append the new coords to
`metrics["position"]`. -/
def _forward (o : PyGameObjecMotion) (h : ℚ) (yi : ℚ) : PyGameObjecMotion :=
  let (x, y) := o.coords
  let y' := if y - yi ≤ 0 then h else y - yi
  { o with coords := (x, y'), metrics_position := o.metrics_position ++ [(x, y')] }

/-- Embedding of `PyGameObjecMotion._backwards` (lines 155–165): move down (increasing
`y`), wrapping `y` to `0` when `y + yi >= h`, then append to the trail. -/
def _backwards (o : PyGameObjecMotion) (h : ℚ) (yi : ℚ) : PyGameObjecMotion :=
  let (x, y) := o.coords
  let y' := if y + yi ≥ h then 0 else y + yi
  { o with coords := (x, y'), metrics_position := o.metrics_position ++ [(x, y')] }

/-- Embedding of `PyGameObjecMotion._left` (lines 167–177): decrease `x`, wrapping to `w`
when `x - xi <= 0`, then append to the trail. -/
def _left (o : PyGameObjecMotion) (w : ℚ) (xi : ℚ) : PyGameObjecMotion :=
  let (x, y) := o.coords
  let x' := if x - xi ≤ 0 then w else x - xi
  { o with coords := (x', y), metrics_position := o.metrics_position ++ [(x', y)] }

/-- Embedding of `PyGameObjecMotion._right` (lines 179–189): increase `x`, wrapping to `0`
when `x + xi >= w`, then append to the trail. -/
def _right (o : PyGameObjecMotion) (w : ℚ) (xi : ℚ) : PyGameObjecMotion :=
  let (x, y) := o.coords
  let x' := if x + xi ≥ w then 0 else x + xi
  { o with coords := (x', y), metrics_position := o.metrics_position ++ [(x', y)] }

/-- Embedding of `PyGameObjecMotion._check_screen_collition` (lines 191–209): the
boundary pre-check; `False` vetoes the move.  An unrecognized `direction`
falls through every branch and returns `True`. -/
def _check_screen_collition (o : PyGameObjecMotion) (screen_width screen_height xi yi : ℚ)
    (direction : String) : Bool :=
  let (x, y) := o.coords
  if direction = "right" ∧ x + xi ≥ screen_width then false
  else if direction = "left" ∧ x - xi ≤ 0 then false
  else if direction = "up" ∧ y - yi ≤ 0 then false
  else if direction = "down" ∧ y + yi ≥ screen_height then false
  else true

/-- One iteration of the `for _ in range(steps)` body of
`PyGameObjecMotion.move` (lines 229–239); the `else` branch raises
`ValueError("Direction is not valid")`. -/
def moveStep (o : PyGameObjecMotion) (direction : String) (h w yi xi : ℚ) :
    Except String PyGameObjecMotion :=
  if direction = "up" then .ok (o._forward h yi)
  else if direction = "down" then .ok (o._backwards h yi)
  else if direction = "left" then .ok (o._left w xi)
  else if direction = "right" then .ok (o._right w xi)
  else .error "Direction is not valid"

/-- The `for _ in range(steps)` loop of `PyGameObjecMotion.move`. -/
def moveLoop (o : PyGameObjecMotion) (direction : String) (h w yi xi : ℚ) :
    Nat → Except String PyGameObjecMotion
  | 0 => .ok o
  | n + 1 => do
    let o' ← moveStep o direction h w yi xi
    moveLoop o' direction h w yi xi n

/-- Embedding of `PyGameObjecMotion.move` (lines 211–239): the boundary pre-check
(`_check_screen_collition` called with `screen_height=h, screen_width=w`),
an early `return` (state unchanged) when it fails, else the step loop. -/
def move (o : PyGameObjecMotion) (direction : String) (h w yi xi : ℚ) (steps : Nat) :
    Except String PyGameObjecMotion :=
  if !o._check_screen_collition w h xi yi direction then .ok o
  else moveLoop o direction h w yi xi steps

/-- Embedding of `PyGameObjecMotion.jump` (lines 241–247).  The source calls
`self._forward(yi)` / `self._backwards(yi)` with a single positional
argument, so the impulse `yi` lands in the `h` parameter of the step
function and the step size stays at its default `1`; the embedding
reproduces that call exactly. -/
def jump (o : PyGameObjecMotion) (yi : ℚ) (direction : String) :
    Except String PyGameObjecMotion :=
  if direction = "up" ∧ yi ≥ 0 then .ok (o._forward yi 1)
  else if direction = "down" ∧ yi ≤ 0 then .ok (o._backwards yi 1)
  else .error "Direction is not valid"

end PyGameObjecMotion

/-- Sequencing lemma: `Except.ok x >>= f` reduces to `f x` in sequencing in the embedded
exception monad. -/
@[simp] theorem ok_bind {α β : Type} (x : α) (f : α → Except String β) :
    (Except.ok x >>= f) = f x := rfl

/-- Short-circuit lemma: `Except.error e >>= f` propagates the error: a raised exception propagates. -/
@[simp] theorem error_bind {α β : Type} (e : String) (f : α → Except String β) :
    ((Except.error e : Except String α) >>= f) = Except.error e := rfl

/-- An object at position `c` with trail `tr`; motion-equation fields follow
the `PyGameObjecMotion.__init__` defaults (`vx0 = vy0 = 0`,
`gravity = 9.81`, `ax = 0`, `x0, y0` taken from `coords`). -/
def mkObj (c : ℚ × ℚ) (tr : List (ℚ × ℚ)) : PyGameObjecMotion :=
  { x0 := c.1, y0 := c.2, vx0 := 0, vy0 := 0, ay := 9.81, ax := 0,
    coords := c, metrics_velocity := [], metrics_position := tr }

/-- A freshly constructed motion object, mirroring
`PyGameObjecMotion.__init__` (lines 102–141): `coords = (x0, y0)`, the
`gravity` argument stored as `ay`, empty metric lists. -/
def mkMotion (x0 y0 vx0 vy0 gravity ax : ℚ) : PyGameObjecMotion :=
  { x0 := x0, y0 := y0, vx0 := vx0, vy0 := vy0, ay := gravity, ax := ax,
    coords := (x0, y0), metrics_velocity := [], metrics_position := [] }

open PyGameObjecMotion

/-- C9: `transform_coordinates_flip (x, y) h = (x, h - y)`, and applying the
flip twice with the same canvas height is the identity (involution law). -/
theorem c9_flip_formula_and_involution (p : ℚ × ℚ) (h : ℚ) :
    transform_coordinates_flip p h = (p.1, h - p.2) ∧
    transform_coordinates_flip (transform_coordinates_flip p h) h = p := by
  obtain ⟨x, y⟩ := p
  refine ⟨rfl, ?_⟩
  simp [transform_coordinates_flip]

/-- C6: `move "right"` with step size 1 and 3 steps from `(0, 0)` on a
600×600 arena ends at `(3, 0)` and appends exactly the three trail entries
`(1,0), (2,0), (3,0)`, in order — one per accepted primitive step. -/
theorem c6_move_right_three_steps :
    (mkObj (0, 0) []).move "right" 600 600 1 1 3 =
      .ok { mkObj (0, 0) [] with
            coords := (3, 0), metrics_position := [(1, 0), (2, 0), (3, 0)] } := by
  simp [move, moveLoop, moveStep, _check_screen_collition, _right, mkObj]
  norm_num

/-- C4: a `move` call whose first step would strictly cross the arena
boundary in its direction is vetoed wholesale by `_check_screen_collition`:
the call returns with the object (position and trail) exactly unchanged,
whatever `steps` is. -/
theorem c4_boundary_veto (o : PyGameObjecMotion) (h w yi xi : ℚ)
    (direction : String) (steps : Nat)
    (hcross : (direction = "up" ∧ o.coords.2 - yi < 0) ∨
              (direction = "down" ∧ h < o.coords.2 + yi) ∨
              (direction = "left" ∧ o.coords.1 - xi < 0) ∨
              (direction = "right" ∧ w < o.coords.1 + xi)) :
    o.move direction h w yi xi steps = .ok o := by
  suffices hc : o._check_screen_collition w h xi yi direction = false by
    simp [move, hc]
  rcases hcross with ⟨hd, hlt⟩ | ⟨hd, hlt⟩ | ⟨hd, hlt⟩ | ⟨hd, hlt⟩ <;> subst hd <;>
    simp [_check_screen_collition, le_of_lt hlt]

/-- C4 witness: `move "up"` with step size 5 and 3 steps from `y = 2` on a
600-tall arena is rejected entirely. -/
theorem c4_boundary_veto_witness :
    (mkObj (10, 2) []).move "up" 600 600 5 1 3 = .ok (mkObj (10, 2) []) :=
  c4_boundary_veto (mkObj (10, 2) []) 600 600 5 1 "up" 3
    (Or.inl ⟨rfl, by norm_num [mkObj]⟩)

/-- C7 counterexample: a `move` call with the invalid direction
`"diagonal"` but `steps = 0` runs the loop body zero times, so it returns
without any error — the claim's universal "every move call … fails" is
false at this input. -/
theorem c7_counterexample :
    (mkObj (10, 10) []).move "diagonal" 600 600 1 1 0 = .ok (mkObj (10, 10) []) := by
  simp [move, moveLoop, _check_screen_collition]

/-- C7 (amended): a `move` call with a direction outside
`{up, down, left, right}` and at least one step raises
`ValueError("Direction is not valid")` — it passes the boundary pre-check
(which only inspects the four known directions) and fails on the first
loop iteration. -/
theorem c7_invalid_direction_raises (o : PyGameObjecMotion) (h w yi xi : ℚ)
    (direction : String) (steps : Nat) (hs : 1 ≤ steps)
    (hd1 : direction ≠ "up") (hd2 : direction ≠ "down")
    (hd3 : direction ≠ "left") (hd4 : direction ≠ "right") :
    o.move direction h w yi xi steps = .error "Direction is not valid" := by
  obtain ⟨n, rfl⟩ : ∃ n, steps = n + 1 := ⟨steps - 1, by omega⟩
  simp [move, moveLoop, moveStep, _check_screen_collition, hd1, hd2, hd3, hd4]

/-- C7 witness: `move` with direction `"diagonal"` and one step fails with
the invalid-argument error. -/
theorem c7_invalid_direction_raises_witness :
    (mkObj (10, 10) []).move "diagonal" 600 600 1 1 1 =
      .error "Direction is not valid" :=
  c7_invalid_direction_raises (mkObj (10, 10) []) 600 600 1 1 "diagonal" 1
    (by norm_num) (by simp) (by simp) (by simp) (by simp)

/-- C5 counterexample: from `x = 599` on a width-600 arena,
`move "right"` with step size 1 and one step is *not* admitted — the
pre-check vetoes it (`599 + 1 ≥ 600`), so the call leaves the object
unchanged at `x = 599`; it does not yield `x = 0`. -/
theorem c5_counterexample :
    (mkObj (599, 0) []).move "right" 600 600 1 1 1 = .ok (mkObj (599, 0) []) ∧
    Except.map (fun o => o.coords.1) ((mkObj (599, 0) []).move "right" 600 600 1 1 1) ≠
      .ok (0 : ℚ) := by
  constructor
  · simp [PyGameObjecMotion.move, PyGameObjecMotion._check_screen_collition, mkObj]
    norm_num
  · simp [PyGameObjecMotion.move, PyGameObjecMotion._check_screen_collition,
      Except.map, mkObj]
    norm_num

/-- C5 (amended): once a `move` call has been admitted, each individual
step that would reach or exceed the bound wraps the moved coordinate to
the opposite edge instead of being rejected; the `x = 599`, one-step call
is itself vetoed by the inclusive pre-check, but from `x = 598` the
admitted two-step `move "right"` wraps on its second step, ending at
`x = 0`. -/
theorem c5_step_wraps (o : PyGameObjecMotion) (h w yi xi : ℚ) :
    (w ≤ o.coords.1 + xi → (o._right w xi).coords = (0, o.coords.2)) ∧
    (o.coords.1 - xi ≤ 0 → (o._left w xi).coords = (w, o.coords.2)) ∧
    (o.coords.2 - yi ≤ 0 → (o._forward h yi).coords = (o.coords.1, h)) ∧
    (h ≤ o.coords.2 + yi → (o._backwards h yi).coords = (o.coords.1, 0)) ∧
    ((mkObj (598, 0) []).move "right" 600 600 1 1 2 =
      .ok { mkObj (598, 0) [] with
            coords := (0, 0), metrics_position := [(599, 0), (0, 0)] }) := by
  refine ⟨fun hx => ?_, fun hx => ?_, fun hy => ?_, fun hy => ?_, ?_⟩
  · simp [PyGameObjecMotion._right, hx]
  · simp [PyGameObjecMotion._left, hx]
  · simp [PyGameObjecMotion._forward, hy]
  · simp [PyGameObjecMotion._backwards, hy]
  · simp [PyGameObjecMotion.move, PyGameObjecMotion.moveLoop,
      PyGameObjecMotion.moveStep, PyGameObjecMotion._check_screen_collition,
      PyGameObjecMotion._right, mkObj]
    norm_num

/-- C5 witness: a single `_right` step from `x = 599` with `w = 600` wraps
to `x = 0`. -/
theorem c5_step_wraps_witness :
    ((mkObj (599, 3) [])._right 600 1).coords = (0, 3) :=
  (c5_step_wraps (mkObj (599, 3) []) 600 600 1 1).1 (by norm_num [mkObj])

/-- C10: the boundary pre-check compares inclusively (`>=` / `<=`), so a
first step that would land *exactly* on the boundary is already vetoed;
consequently a one-step `move` admitted by the pre-check always takes the
plain-displacement branch, never the wrap-around branch. -/
theorem c10_inclusive_precheck_no_wrap (o : PyGameObjecMotion) (h w yi xi : ℚ) :
    (o.coords.1 + xi = w → o._check_screen_collition w h xi yi "right" = false) ∧
    (o.coords.1 - xi = 0 → o._check_screen_collition w h xi yi "left" = false) ∧
    (o.coords.2 - yi = 0 → o._check_screen_collition w h xi yi "up" = false) ∧
    (o.coords.2 + yi = h → o._check_screen_collition w h xi yi "down" = false) ∧
    (o._check_screen_collition w h xi yi "right" = true →
      o.move "right" h w yi xi 1 =
        .ok { o with
              coords := (o.coords.1 + xi, o.coords.2),
              metrics_position :=
                o.metrics_position ++ [(o.coords.1 + xi, o.coords.2)] }) ∧
    (o._check_screen_collition w h xi yi "left" = true →
      o.move "left" h w yi xi 1 =
        .ok { o with
              coords := (o.coords.1 - xi, o.coords.2),
              metrics_position :=
                o.metrics_position ++ [(o.coords.1 - xi, o.coords.2)] }) ∧
    (o._check_screen_collition w h xi yi "up" = true →
      o.move "up" h w yi xi 1 =
        .ok { o with
              coords := (o.coords.1, o.coords.2 - yi),
              metrics_position :=
                o.metrics_position ++ [(o.coords.1, o.coords.2 - yi)] }) ∧
    (o._check_screen_collition w h xi yi "down" = true →
      o.move "down" h w yi xi 1 =
        .ok { o with
              coords := (o.coords.1, o.coords.2 + yi),
              metrics_position :=
                o.metrics_position ++ [(o.coords.1, o.coords.2 + yi)] }) := by
  refine ⟨fun hx => ?_, fun hx => ?_, fun hy => ?_, fun hy => ?_,
    fun hc => ?_, fun hc => ?_, fun hc => ?_, fun hc => ?_⟩
  · simp [PyGameObjecMotion._check_screen_collition, le_of_eq hx.symm]
  · simp [PyGameObjecMotion._check_screen_collition, le_of_eq hx]
  · simp [PyGameObjecMotion._check_screen_collition, le_of_eq hy]
  · simp [PyGameObjecMotion._check_screen_collition, le_of_eq hy.symm]
  · simp [PyGameObjecMotion._check_screen_collition] at hc
    simp [PyGameObjecMotion.move, PyGameObjecMotion.moveLoop,
      PyGameObjecMotion.moveStep, PyGameObjecMotion._check_screen_collition,
      PyGameObjecMotion._right, hc, not_le.mpr hc]
  · simp [PyGameObjecMotion._check_screen_collition] at hc
    simp [PyGameObjecMotion.move, PyGameObjecMotion.moveLoop,
      PyGameObjecMotion.moveStep, PyGameObjecMotion._check_screen_collition,
      PyGameObjecMotion._left, hc, not_le.mpr hc]
  · simp [PyGameObjecMotion._check_screen_collition] at hc
    simp [PyGameObjecMotion.move, PyGameObjecMotion.moveLoop,
      PyGameObjecMotion.moveStep, PyGameObjecMotion._check_screen_collition,
      PyGameObjecMotion._forward, hc, not_le.mpr hc]
  · simp [PyGameObjecMotion._check_screen_collition] at hc
    simp [PyGameObjecMotion.move, PyGameObjecMotion.moveLoop,
      PyGameObjecMotion.moveStep, PyGameObjecMotion._check_screen_collition,
      PyGameObjecMotion._backwards, hc, not_le.mpr hc]

/-- C10 witness: from `x = 599` with step size 1 on width 600, the
exact-landing pre-check vetoes (`599 + 1 = 600`), and from `x = 5` the
admitted one-step `move "right"` moves plainly to `x = 6` with no wrap. -/
theorem c10_inclusive_precheck_no_wrap_witness :
    (mkObj (599, 3) [])._check_screen_collition 600 600 1 1 "right" = false ∧
    (mkObj (5, 5) []).move "right" 600 600 1 1 1 =
      .ok { mkObj (5, 5) [] with
            coords := (6, 5), metrics_position := [(6, 5)] } := by
  constructor
  · exact (c10_inclusive_precheck_no_wrap (mkObj (599, 3) []) 600 600 1 1).1
      (by norm_num [mkObj])
  · have h2 := (c10_inclusive_precheck_no_wrap (mkObj (5, 5) []) 600 600 1 1).2.2.2.2.1
      (by simp [mkObj, PyGameObjecMotion._check_screen_collition]; norm_num)
    norm_num [mkObj] at h2 ⊢
    exact h2

/-- C1: the kinematic-position claim fails on the x-axis.  At
`vx0 = 1, ax = 0, x0 = 0, t = 1` the source's `get_x_position` — which
shadows the acceleration with `get_x_velocity(t) * t` — returns `3/2`,
while the claimed closed form `0.5·ax·t² + vx0·t + x0` gives `1`; the
y-axis value matches the claimed form. -/
theorem c1_x_position_defect :
    (mkMotion 0 0 1 0 9.81 0).get_x_position 1 = 3 / 2 ∧
    (mkMotion 0 0 1 0 9.81 0).get_x_position 1 ≠
      0.5 * (mkMotion 0 0 1 0 9.81 0).ax * 1 ^ 2 +
        (mkMotion 0 0 1 0 9.81 0).vx0 * 1 + (mkMotion 0 0 1 0 9.81 0).x0 ∧
    (mkMotion 0 0 1 0 9.81 0).get_y_position 1 =
      0.5 * (mkMotion 0 0 1 0 9.81 0).ay * 1 ^ 2 +
        (mkMotion 0 0 1 0 9.81 0).vy0 * 1 + (mkMotion 0 0 1 0 9.81 0).y0 := by
  refine ⟨?_, ?_, ?_⟩ <;>
    norm_num [PyGameObjecMotion.get_x_position, PyGameObjecMotion.get_y_position,
      PyGameObjecMotion.get_x_velocity, mkMotion]

/-- C2: `jump(50, "up")` from `(10, 10)` does not displace by the impulse.
The source forwards the impulse into the wrap-height slot of `_forward`
and moves by the default step 1 (with the wrap check active), yielding
`(10, 9)` — and appending it to the trail — not the claimed `(10, -40)`. -/
theorem c2_jump_defect :
    (mkObj (10, 10) []).jump 50 "up" =
      .ok { mkObj (10, 10) [] with
            coords := (10, 9), metrics_position := [(10, 9)] } ∧
    Except.map (fun o => o.coords) ((mkObj (10, 10) []).jump 50 "up") ≠
      .ok ((10 : ℚ), (-40 : ℚ)) := by
  constructor
  · simp [PyGameObjecMotion.jump, PyGameObjecMotion._forward, mkObj]
    norm_num
  · simp [PyGameObjecMotion.jump, PyGameObjecMotion._forward, Except.map, mkObj]
    norm_num

/-- C3: `get_velocity_module` at `t = 0` with `vx0 = 3, vy0 = 4` returns
`√(3² + 4) = √13`, not the Euclidean norm `√(3² + 4²) = 5` the claim
states — the source leaves `vy0` unsquared. -/
theorem c3_speed_defect :
    (mkMotion 0 0 3 4 9.81 0).get_velocity_module 0 = Real.sqrt 13 ∧
    Real.sqrt ((3 : ℝ) ^ 2 + 4 ^ 2) = 5 ∧
    (mkMotion 0 0 3 4 9.81 0).get_velocity_module 0 ≠ 5 := by
  have h13 : (mkMotion 0 0 3 4 9.81 0).get_velocity_module 0 = Real.sqrt 13 := by
    simp [PyGameObjecMotion.get_velocity_module, mkMotion]
    norm_num
  have h25 : Real.sqrt ((3 : ℝ) ^ 2 + 4 ^ 2) = 5 := by
    rw [show (3 : ℝ) ^ 2 + 4 ^ 2 = 5 ^ 2 by norm_num]
    exact Real.sqrt_sq (by norm_num)
  refine ⟨h13, h25, ?_⟩
  rw [h13]
  intro hcon
  have := Real.sqrt_lt_sqrt (by norm_num : (0 : ℝ) ≤ 13) (by norm_num : (13 : ℝ) < 25)
  rw [show Real.sqrt 25 = 5 by
    rw [show (25 : ℝ) = 5 ^ 2 by norm_num]; exact Real.sqrt_sq (by norm_num)] at this
  exact absurd hcon (ne_of_lt this)

/-- C8 counterexample: the motion getters evaluate their kinematic
formulas at the negative time `t = -1` and return values — no
invalid-argument failure exists anywhere on their code path (lines
88–99 contain no check on `t`). -/
theorem c8_counterexample :
    (mkMotion 0 100 5 10 9.81 0).get_y_position (-1) = 18981 / 200 ∧
    (mkMotion 0 100 5 10 9.81 0).get_y_velocity (-1) = 19 / 100 ∧
    (mkMotion 0 100 5 10 9.81 0).get_x_position (-1) = -15 / 2 ∧
    (mkMotion 0 100 5 10 9.81 0).get_x_velocity (-1) = 5 := by
  refine ⟨?_, ?_, ?_, ?_⟩ <;>
    norm_num [PyGameObjecMotion.get_y_position, PyGameObjecMotion.get_y_velocity,
      PyGameObjecMotion.get_x_position, PyGameObjecMotion.get_x_velocity, mkMotion]

/-- C8 (amended): negative elapsed time is silently accepted: for every
`t < 0` the position and velocity getters simply evaluate their formulas
(`get_x_position` through the shadowed-acceleration expression), and
`get_velocity_module` takes its `t ≤ 0` branch, returning
`√(vx0² + vy0)`; no error is reported. -/
theorem c8_negative_time_silently_accepted (m : PyGameObjecMotion) (t : ℚ)
    (ht : t < 0) :
    m.get_x_position t = 0.5 * ((m.ax * t + m.vx0) * t) * t ^ 2 + m.vx0 * t + m.x0 ∧
    m.get_y_position t = 0.5 * m.ay * t ^ 2 + m.vy0 * t + m.y0 ∧
    m.get_x_velocity t = m.ax * t + m.vx0 ∧
    m.get_y_velocity t = m.ay * t + m.vy0 ∧
    m.get_velocity_module t = Real.sqrt ((m.vx0 ^ 2 + m.vy0 : ℚ) : ℝ) := by
  refine ⟨rfl, rfl, rfl, rfl, ?_⟩
  simp [PyGameObjecMotion.get_velocity_module, le_of_lt ht]

/-- C8 witness: the amended claim at `t = -1` on a concrete model. -/
theorem c8_negative_time_silently_accepted_witness :
    (mkMotion 0 100 5 10 9.81 0).get_velocity_module (-1) =
      Real.sqrt (((mkMotion 0 100 5 10 9.81 0).vx0 ^ 2 +
        (mkMotion 0 100 5 10 9.81 0).vy0 : ℚ) : ℝ) :=
  (c8_negative_time_silently_accepted (mkMotion 0 100 5 10 9.81 0) (-1)
    (by norm_num)).2.2.2.2
